import Mathlib

/-!
Verification of the leptos counter tutorial (src/src/main.rs).

The application creates two reactive signals, `count` and `x`, both
initialized to 0, a derived computation `double_count = move || count.get() * 2`,
and a view with:
  * a "Click Me" button whose click handler runs `set_count.update(|n| *n += 1)`,
    whose `red` class is driven by `move || count.get() % 2 == 1`, and whose
    reactive text node is `move || count.get()`;
  * a "Double Count" paragraph text bound to `double_count`;
  * a `progress` element with static attribute `max="50"` and `value=double_count`;
  * a `div` with `inner_html=html` where
    `html = "<p>This HTML will be injected.</p>"`;
  * a "Click to Move" button whose click handler runs `set_x.update(|n| *n += 10)`,
    with `style:left=move || format!("{}px", x.get() + 100)`,
    `style:background-color=move || format!("rgb({}, {}, 100)", x.get(), 100)`,
    static `style="position: absolute"`, static `style:max-width="400px"`, and
    CSS variable `style=("--columns", x)`.

Signal values are `i32` in the source.  Two embeddings are used side by side:

  * an unbounded-`Int` embedding of the closures and handlers, adequate for
    statements whose inputs keep every intermediate value inside the `i32`
    range, where `Int` and `i32` arithmetic coincide exactly, and for
    statements insensitive to integer width (frame properties, absence of
    mutation);
  * an `i32`-faithful embedding (the `32`-suffixed definitions, built on
    `wrap32`) for universally quantified statements whose ranges reach the
    `i32` boundary: there Rust `+=` and `*` wrap to two's complement in a
    release build (a debug build panics on the same click instead of storing
    a value, so in neither profile does the ideal unbounded value appear).
    The wrapped model is used to refute and then bound those statements.

Closures from the `view!` block are embedded as state-passing functions
`AppState → α × AppState`, so that freedom from signal mutation during
evaluation is a provable statement rather than a modelling artifact.
The signal-store propagation machinery itself (leptos framework code) is not
part of this repository; where a claim depends on it, the corresponding
definition is modelled from the spec and marked as such.
-/

namespace LeptosTutorial

/-- The reactive state of the `App` component: the two signal cells created by
`let (count, set_count) = create_signal(0)` and `let (x, set_x) = create_signal(0)`
(main.rs lines 22-23). -/
structure AppState where
  count : Int
  x : Int
deriving DecidableEq

/-- Both signals are initialized to 0 (`create_signal(0)`). -/
def initState : AppState := { count := 0, x := 0 }

/-- Reading the `count` signal: `count.get()` returns the current value and
leaves the state untouched. -/
def countGet (s : AppState) : Int × AppState := (s.count, s)

/-- Reading the `x` signal: `x.get()` returns the current value and leaves the
state untouched. -/
def xGet (s : AppState) : Int × AppState := (s.x, s)

/-- The derived computation `let double_count = move || count.get() * 2;`
(main.rs line 24), with unbounded product: valid while `count` is below
2^30, where `i32` multiplication does not overflow; `double_count32` below
is the `i32`-faithful version. -/
def double_count (s : AppState) : Int × AppState :=
  let r := countGet s
  (r.1 * 2, r.2)

/-- The reactive text-node closure `move || count.get()` inside the
"Click Me" button (main.rs line 54). -/
def countTextClosure (s : AppState) : Int × AppState := countGet s

/-- The class binding closure `class:red=move || count.get() % 2 == 1`
(main.rs line 52).  Rust `%` on `i32` is the truncated remainder, `Int.tmod`. -/
def redClassClosure (s : AppState) : Bool × AppState :=
  let r := countGet s
  (Int.tmod r.1 2 == 1, r.2)

/-- The style binding closure `style:left=move || format!("{}px", x.get() + 100)`
(main.rs line 73), with unbounded sum: valid while `x + 100` stays within
`i32` range; `leftStyleClosure32` below is the `i32`-faithful version. -/
def leftStyleClosure (s : AppState) : String × AppState :=
  let r := xGet s
  (toString (r.1 + 100) ++ "px", r.2)

/-- The style binding closure
`style:background-color=move || format!("rgb({}, {}, 100)", x.get(), 100)`
(main.rs line 74). -/
def bgColorClosure (s : AppState) : String × AppState :=
  let r := xGet s
  ("rgb(" ++ toString r.1 ++ ", " ++ toString (100 : Int) ++ ", 100)", r.2)

/-- The CSS-variable binding `style=("--columns", x)` (main.rs line 77) passes
the `x` signal itself; its value is read like any other signal read. -/
def columnsClosure (s : AppState) : Int × AppState := xGet s

/-- The "Click Me" handler `move |_| { set_count.update(|n| *n += 1); }`
(main.rs lines 46-48): `update` reads the current value, applies the closure
and stores the result.  Unbounded increment: valid for the first 2^31 - 1
clicks, where `i32` addition does not overflow; `clickMeHandler32` below is
the `i32`-faithful version. -/
def clickMeHandler (s : AppState) : AppState := { s with count := s.count + 1 }

/-- The "Click to Move" handler `move |_| { set_x.update(|n| *n += 10); }`
(main.rs lines 68-70).  Unbounded increment, valid while `x + 10` stays
within `i32` range; `clickMoveHandler32` below is the `i32`-faithful
version. -/
def clickMoveHandler (s : AppState) : AppState := { s with x := s.x + 10 }

/-- Modelled from the spec: `writer.set(v)` replaces the value (spec section 4.1).
The signal-store implementation lives in the leptos framework, not under src/;
only the value-replacement effect on the app state is needed here. -/
def setCountTo (v : Int) (s : AppState) : AppState := { s with count := v }

/-- The two click events a user can perform on this view. -/
inductive Event where
  | clickMe
  | clickMove
deriving DecidableEq

/-- Dispatch one click event to its `on:click` handler. -/
def step (s : AppState) (e : Event) : AppState :=
  match e with
  | Event.clickMe => clickMeHandler s
  | Event.clickMove => clickMoveHandler s

/-- Run a sequence of click events from the initial state. -/
def run (evs : List Event) : AppState := evs.foldl step initState

/-- How many clicks of a given kind a sequence of events contains. -/
def nClicks (e : Event) : List Event → Nat
  | [] => 0
  | e2 :: evs => nClicks e evs + (if e2 = e then 1 else 0)

/-! Rendered DOM facets.  Per the spec (sections 5 and 8), every notification
runs synchronously to completion before the next event, so after each event
every binding shows its closure evaluated at the current signal values. -/

/-- The number rendered by the button's reactive text node `{move || count.get()}`. -/
def countNum (s : AppState) : Int := (countTextClosure s).1

/-- The rendered text content of the reactive text node in the "Click Me" button. -/
def countText (s : AppState) : String := toString (countNum s)

/-- The rendered text content of the "Double Count" text node bound to
`double_count`. -/
def doubleText (s : AppState) : String := toString (double_count s).1

/-- Whether the `red` class is present on the "Click Me" button. -/
def redClassOn (s : AppState) : Bool := (redClassClosure s).1

/-- The rendered `value` of the `progress` element, bound as `value=double_count`
(main.rs line 60). -/
def progressValue (s : AppState) : Int := (double_count s).1

/-- The static `max="50"` attribute of the `progress` element (main.rs line 57). -/
def progressMaxAttr : String := "50"

/-- The rendered `left` style property of the "Click to Move" button. -/
def leftStyle (s : AppState) : String := (leftStyleClosure s).1

/-- The rendered `background-color` style property of the "Click to Move" button. -/
def bgColorStyle (s : AppState) : String := (bgColorClosure s).1

/-- The rendered value of the CSS variable `--columns`. -/
def columnsVar (s : AppState) : Int := (columnsClosure s).1

/-! A generic signal cell with its subscriber list, for the store-level
idempotence property. -/

/-- A signal cell: current value plus subscriber ids in subscription order
(spec section 3 data model). -/
structure Signal (α : Type) where
  value : α
  subscribers : List Nat

/-- Modelled from the spec: `writer.set(v)` replaces the value and, if `v` is
not equal to the previous value (equality decidable), synchronously notifies
all current subscribers in subscription order; if `v` equals the previous
value no subscriber is notified (spec sections 4.1 and 8).  The store
implementation is leptos framework code not under src/.  Returns the updated
cell together with the list of notified subscribers. -/
def Signal.set {α : Type} [DecidableEq α] (s : Signal α) (v : α) :
    Signal α × List Nat :=
  if v = s.value then (s, [])
  else ({ s with value := v }, s.subscribers)

/-! A small HTML fragment model for the raw-HTML binding. -/

/-- A parsed HTML node: a text node or an element with child nodes. -/
inductive Html where
  | text : String → Html
  | elem : String → List Html → Html

/-- Split a character list at the first occurrence of `stop`, dropping it;
`none` if `stop` does not occur. -/
def splitUntil (stop : Char) : List Char → Option (List Char × List Char)
  | [] => none
  | c :: cs =>
    if c = stop then some ([], cs)
    else (splitUntil stop cs).map (fun p => (c :: p.1, p.2))

/-- Parse a flat sequence of markup nodes (text, and elements whose content is
text) from a character list, with fuel for termination. -/
def parseNodes : Nat → List Char → Option (List Html)
  | 0, _ => none
  | _ + 1, [] => some []
  | fuel + 1, '<' :: rest =>
    match splitUntil '>' rest with
    | none => none
    | some (tag, rest2) =>
      match splitUntil '<' rest2 with
      | none => none
      | some (content, rest3) =>
        match rest3 with
        | '/' :: rest4 =>
          match splitUntil '>' rest4 with
          | none => none
          | some (ctag, rest5) =>
            if ctag = tag then
              (parseNodes fuel rest5).map (fun ns =>
                Html.elem (String.mk tag)
                  (if content = [] then [] else [Html.text (String.mk content)]) :: ns)
            else none
        | _ => none
  | fuel + 1, cs =>
    let t := cs.takeWhile (fun c => c != '<')
    let rest := cs.dropWhile (fun c => c != '<')
    (parseNodes fuel rest).map (fun ns => Html.text (String.mk t) :: ns)

/-- Parse a markup string into its node list. -/
def parseHtml (s : String) : Option (List Html) :=
  parseNodes (s.length + 1) s.data

/-- Modelled from the spec: the raw-HTML binding (`inner_html=...`) replaces the
node's entire child content by parsing the bound string as markup, verbatim and
with no escaping (spec sections 4.3 and 7).  The DOM-side implementation is
leptos framework code not under src/. -/
def innerHtmlChildren (s : String) : Option (List Html) := parseHtml s

/-- The HTML escaping a text binding would apply; the raw-HTML binding applies
nothing of the kind. -/
def escapeHtml (s : String) : String :=
  String.join (s.data.map (fun c =>
    if c = '<' then "&lt;"
    else if c = '>' then "&gt;"
    else if c = '&' then "&amp;"
    else String.mk [c]))

/-- The static string bound as raw HTML:
`let html = "<p>This HTML will be injected.</p>";` (main.rs line 25). -/
def html : String := "<p>This HTML will be injected.</p>"

/-! The `i32`-faithful model.  The signals are `i32` (`create_signal(0)` infers
`i32`), so `*n += 1`, `*n += 10`, `count.get() * 2` and `x.get() + 100` are
`i32` operations: in a release build an overflowing result wraps to two's
complement; in a debug build the overflowing operation panics, so the ideal
unbounded value is never stored or rendered in either profile.  The wrapped
(release) semantics is embedded below; it is total and deterministic, and it
diverges from the unbounded model at exactly the inputs where a debug build
would panic. -/

/-- Two's-complement wrapping into the `i32` range [-2^31, 2^31). -/
def wrap32 (n : Int) : Int := (n + 2147483648) % 4294967296 - 2147483648

/-- The "Click Me" handler with `i32` semantics: `*n += 1` wraps on overflow
(release profile; a debug build panics on the same click). -/
def clickMeHandler32 (s : AppState) : AppState :=
  { s with count := wrap32 (s.count + 1) }

/-- The "Click to Move" handler with `i32` semantics: `*n += 10` wraps on
overflow (release profile; a debug build panics on the same click). -/
def clickMoveHandler32 (s : AppState) : AppState :=
  { s with x := wrap32 (s.x + 10) }

/-- The derived computation `move || count.get() * 2` with `i32` semantics:
the product wraps once `count` reaches 2^30 (release profile; debug panics). -/
def double_count32 (s : AppState) : Int × AppState :=
  let r := countGet s
  (wrap32 (r.1 * 2), r.2)

/-- The `left` style closure `move || format!("{}px", x.get() + 100)` with
`i32` semantics for the sum. -/
def leftStyleClosure32 (s : AppState) : String × AppState :=
  let r := xGet s
  (toString (wrap32 (r.1 + 100)) ++ "px", r.2)

/-- Dispatch one click event to its handler, `i32` semantics. -/
def step32 (s : AppState) (e : Event) : AppState :=
  match e with
  | Event.clickMe => clickMeHandler32 s
  | Event.clickMove => clickMoveHandler32 s

/-- Run a sequence of click events from the initial state, `i32` semantics. -/
def run32 (evs : List Event) : AppState := evs.foldl step32 initState

/-- The rendered `value` of the `progress` element under `i32` semantics. -/
def progressValue32 (s : AppState) : Int := (double_count32 s).1

/-- The rendered "Double Count" text under `i32` semantics. -/
def doubleText32 (s : AppState) : String := toString (double_count32 s).1

/-- The rendered `left` style property under `i32` semantics. -/
def leftStyle32 (s : AppState) : String := (leftStyleClosure32 s).1

/-! Helper lemmas: signal values in every reachable state of the
`i32`-faithful model. -/

/-- Wrapping is idempotent. -/
theorem wrap32_wrap32 (a : Int) : wrap32 (wrap32 a) = wrap32 a := by
  unfold wrap32
  omega

/-- Wrapping an already-wrapped left summand changes nothing: increments
compose modulo 2^32. -/
theorem wrap32_add_left (a b : Int) : wrap32 (wrap32 a + b) = wrap32 (a + b) := by
  unfold wrap32
  omega

/-- Running events from a state with in-range `count` leaves `count` at the
wrap of the start value plus the number of "Click Me" clicks. -/
theorem count32_foldl (evs : List Event) (s : AppState)
    (hs : wrap32 s.count = s.count) :
    (evs.foldl step32 s).count
      = wrap32 (s.count + (nClicks Event.clickMe evs : Int)) := by
  induction evs generalizing s with
  | nil => simpa [nClicks] using hs.symm
  | cons e evs ih =>
    cases e with
    | clickMe =>
      have h2 : (List.foldl step32 s (Event.clickMe :: evs)).count
          = wrap32 (wrap32 (s.count + 1) + (nClicks Event.clickMe evs : Int)) :=
        ih { s with count := wrap32 (s.count + 1) } (wrap32_wrap32 (s.count + 1))
      rw [h2, wrap32_add_left]
      have hn : nClicks Event.clickMe (Event.clickMe :: evs)
          = nClicks Event.clickMe evs + 1 := by simp [nClicks]
      rw [hn]
      push_cast
      congr 1
      ring
    | clickMove =>
      have h2 : (List.foldl step32 s (Event.clickMove :: evs)).count
          = wrap32 (s.count + (nClicks Event.clickMe evs : Int)) :=
        ih { s with x := wrap32 (s.x + 10) } hs
      rw [h2]
      have hn : nClicks Event.clickMe (Event.clickMove :: evs)
          = nClicks Event.clickMe evs := by simp [nClicks]
      rw [hn]

/-- Running events from a state with in-range `x` leaves `x` at the wrap of
the start value plus ten per "Click to Move" click. -/
theorem x32_foldl (evs : List Event) (s : AppState)
    (hs : wrap32 s.x = s.x) :
    (evs.foldl step32 s).x
      = wrap32 (s.x + 10 * (nClicks Event.clickMove evs : Int)) := by
  induction evs generalizing s with
  | nil => simpa [nClicks] using hs.symm
  | cons e evs ih =>
    cases e with
    | clickMe =>
      have h2 : (List.foldl step32 s (Event.clickMe :: evs)).x
          = wrap32 (s.x + 10 * (nClicks Event.clickMove evs : Int)) :=
        ih { s with count := wrap32 (s.count + 1) } hs
      rw [h2]
      have hn : nClicks Event.clickMove (Event.clickMe :: evs)
          = nClicks Event.clickMove evs := by simp [nClicks]
      rw [hn]
    | clickMove =>
      have h2 : (List.foldl step32 s (Event.clickMove :: evs)).x
          = wrap32 (wrap32 (s.x + 10) + 10 * (nClicks Event.clickMove evs : Int)) :=
        ih { s with x := wrap32 (s.x + 10) } (wrap32_wrap32 (s.x + 10))
      rw [h2, wrap32_add_left]
      have hn : nClicks Event.clickMove (Event.clickMove :: evs)
          = nClicks Event.clickMove evs + 1 := by simp [nClicks]
      rw [hn]
      push_cast
      congr 1
      ring

/-- In the state the program reaches after a click sequence, `count` is the
two's-complement wrap of the number of "Click Me" clicks. -/
theorem run32_count (evs : List Event) :
    (run32 evs).count = wrap32 (nClicks Event.clickMe evs : Int) := by
  have h := count32_foldl evs initState (by decide)
  simpa [run32, initState] using h

/-- In the state the program reaches after a click sequence, `x` is the
two's-complement wrap of ten times the number of "Click to Move" clicks. -/
theorem run32_x (evs : List Event) :
    (run32 evs).x = wrap32 (10 * (nClicks Event.clickMove evs : Int)) := by
  have h := x32_foldl evs initState (by decide)
  simpa [run32, initState] using h

/-- A replicated sequence counts its own event. -/
theorem nClicks_replicate (n : Nat) (e : Event) :
    nClicks e (List.replicate n e) = n := by
  induction n with
  | zero => rfl
  | succ n ih => simp [List.replicate_succ, nClicks, ih]

/-- The number rendered in the button's text node is the `count` signal's
value. -/
theorem countNum_eq (s : AppState) : countNum s = s.count := rfl

/-- The progress value under `i32` semantics is the wrapped double of
`count`. -/
theorem progressValue32_eq (s : AppState) :
    progressValue32 s = wrap32 (s.count * 2) := rfl

/-- Truncated remainder of a natural-number cast agrees with the natural
remainder. -/
theorem tmod_coe_two (n : Nat) : Int.tmod (n : Int) 2 = ((n % 2 : Nat) : Int) := by
  exact_mod_cast (Int.ofNat_tmod n 2).symm

/-! The ten claims. -/

/-- C1 (counterexample): the claim that after `count.set(25)` the rendered
progress value equals 25 is false on this code: the progress element's value
is bound to `double_count`, so it reads 50 there, not 25. -/
theorem progress_value_not_25 :
    progressValue (setCountTo 25 initState) ≠ 25 := by decide

/-- C1 (amended): the progress element is given `max="50"` and
`value=double_count`, so after `count.set(25)` the rendered progress value
equals 50 (twice `count`) and its max equals 50. -/
theorem progress_after_set25 :
    progressValue (setCountTo 25 initState) = 50 ∧ progressMaxAttr = "50" :=
  ⟨rfl, rfl⟩

/-- C2: with `count` initialized to 0, after `count.set(5)` the derived
computation `double_count = move || count.get() * 2` evaluates to 10. -/
theorem double_count_after_set5 :
    (double_count (setCountTo 5 initState)).1 = 10 := rfl

/-- C3: starting from `count = 0` with the click handler incrementing `count`
by 1, after 3 clicks the bound text content reads "3" and the derived double
text reads "6". -/
theorem three_clicks_text :
    countText (run [Event.clickMe, Event.clickMe, Event.clickMe]) = "3" ∧
    doubleText (run [Event.clickMe, Event.clickMe, Event.clickMe]) = "6" :=
  ⟨rfl, rfl⟩

/-- C4 (counterexample): class-presence-iff-odd does not hold for every value
of `count`: after 2^31 + 1 "Click Me" clicks the `i32` count has wrapped to
-2147483647, which is odd, yet `count.get() % 2 == 1` is false there (Rust
`%` of a negative dividend yields -1), so the `red` class is absent.  (A
debug build panics on the overflowing click instead of wrapping.) -/
theorem red_class_parity_fails_after_wrap :
    (run32 (List.replicate 2147483649 Event.clickMe)).count = -2147483647 ∧
    Odd ((run32 (List.replicate 2147483649 Event.clickMe)).count) ∧
    redClassOn (run32 (List.replicate 2147483649 Event.clickMe)) = false := by
  have hc : (run32 (List.replicate 2147483649 Event.clickMe)).count
      = -2147483647 := by
    rw [run32_count, nClicks_replicate]
    decide
  refine ⟨hc, ?_, ?_⟩
  · rw [hc, Int.odd_iff]
    decide
  · simp only [redClassOn, redClassClosure, countGet, hc]
    decide

/-- C4 (amended): as long as `count` has not left the `i32` range — for every
click sequence with at most 2^31 - 1 "Click Me" clicks, so in particular for
`count` = 0, 1, 2, 3 — the `red` class driven by `move || count.get() % 2 == 1`
is present exactly when `count` is odd. -/
theorem red_class_iff_odd_in_range (evs : List Event)
    (h : nClicks Event.clickMe evs ≤ 2147483647) :
    redClassOn (run32 evs) = true ↔ Odd (run32 evs).count := by
  have hc : (run32 evs).count = (nClicks Event.clickMe evs : Int) := by
    rw [run32_count]
    unfold wrap32
    omega
  simp only [redClassOn, redClassClosure, countGet, hc, tmod_coe_two,
    beq_iff_eq, Int.odd_coe_nat]
  constructor
  · intro h2
    exact Nat.odd_iff.mpr (by exact_mod_cast h2)
  · intro h2
    exact_mod_cast Nat.odd_iff.mp h2

/-- C4 witness: three clicks are in range; the class toggles with parity
there. -/
theorem red_class_iff_odd_in_range_witness :
    nClicks Event.clickMe [Event.clickMe, Event.clickMe, Event.clickMe]
      ≤ 2147483647 ∧
    (redClassOn (run32 [Event.clickMe, Event.clickMe, Event.clickMe]) = true ↔
      Odd (run32 [Event.clickMe, Event.clickMe, Event.clickMe]).count) :=
  ⟨by decide,
    red_class_iff_odd_in_range [Event.clickMe, Event.clickMe, Event.clickMe]
      (by decide)⟩

/-- C5: calling `set(v)` on a signal that already holds a value equal to `v`
(equality decidable) notifies no subscriber — so no DOM write follows — and
leaves the cell unchanged. -/
theorem set_equal_value_no_notification {α : Type} [DecidableEq α]
    (sig : Signal α) (v : α) (h : sig.value = v) :
    (Signal.set sig v).2 = [] ∧ (Signal.set sig v).1 = sig := by
  simp [Signal.set, h]

/-- C5 witness: a concrete cell holding 0 with three subscribers; `set 0`
notifies nobody and changes nothing. -/
theorem set_equal_value_no_notification_witness :
    (Signal.set (Signal.mk (0 : Int) [1, 2, 3]) 0).2 = [] ∧
    (Signal.set (Signal.mk (0 : Int) [1, 2, 3]) 0).1 = Signal.mk (0 : Int) [1, 2, 3] :=
  set_equal_value_no_notification (Signal.mk (0 : Int) [1, 2, 3]) 0 rfl

/-- C6: evaluating the derived computation `double_count` or any binding
closure of the view (count text, red class, left, background-color,
--columns) never mutates a signal: the post-evaluation state is the
input state. -/
theorem closures_never_mutate (s : AppState) :
    (double_count s).2 = s ∧ (countTextClosure s).2 = s ∧
    (redClassClosure s).2 = s ∧ (leftStyleClosure s).2 = s ∧
    (bgColorClosure s).2 = s ∧ (columnsClosure s).2 = s :=
  ⟨rfl, rfl, rfl, rfl, rfl, rfl⟩

/-- C7: the raw-HTML binding injects the bound string verbatim, with no
escaping: both "<p>hi</p>" and the program's static `html` string parse to
exactly one paragraph element holding the given text, while the escaped form
of "<p>hi</p>" differs from it and would parse to a mere text node. -/
theorem raw_html_injected_verbatim :
    innerHtmlChildren "<p>hi</p>" = some [Html.elem "p" [Html.text "hi"]] ∧
    innerHtmlChildren html =
      some [Html.elem "p" [Html.text "This HTML will be injected."]] ∧
    escapeHtml "<p>hi</p>" ≠ "<p>hi</p>" ∧
    innerHtmlChildren (escapeHtml "<p>hi</p>") =
      some [Html.text "&lt;p&gt;hi&lt;/p&gt;"] := by
  refine ⟨rfl, rfl, ?_, rfl⟩
  decide

/-- C8 (counterexample): `x` does not hold 10 * n for every number n of
"Click to Move" clicks: at n = 214748365 the `i32` sum `*n += 10` has
overflowed, so `x` holds -2147483646 rather than 2147483650.  (A debug build
panics on the overflowing click instead of wrapping.) -/
theorem move_x_fails_after_wrap :
    (run32 (List.replicate 214748365 Event.clickMove)).x = -2147483646 ∧
    (run32 (List.replicate 214748365 Event.clickMove)).x
      ≠ 10 * (214748365 : Int) := by
  have hx : (run32 (List.replicate 214748365 Event.clickMove)).x
      = -2147483646 := by
    rw [run32_x, nClicks_replicate]
    decide
  refine ⟨hx, ?_⟩
  rw [hx]
  decide

/-- C8 (amended): after any click sequence containing n "Click to Move"
clicks with `10 * n + 100` within `i32` range (so no addition in the handler
or in the `left` closure overflows), the signal `x` holds `10 * n`, the
button's `left` style equals `format!("{}px", 10 * n + 100)` and its
`background-color` equals `format!("rgb({}, {}, 100)", 10 * n, 100)`. -/
theorem move_button_in_range (evs : List Event)
    (h : 10 * (nClicks Event.clickMove evs : Int) + 100 ≤ 2147483647) :
    (run32 evs).x = 10 * (nClicks Event.clickMove evs : Int) ∧
    leftStyle32 (run32 evs) =
      toString (10 * (nClicks Event.clickMove evs : Int) + 100) ++ "px" ∧
    bgColorStyle (run32 evs) =
      "rgb(" ++ toString (10 * (nClicks Event.clickMove evs : Int)) ++ ", " ++
        toString (100 : Int) ++ ", 100)" := by
  have hx : (run32 evs).x = 10 * (nClicks Event.clickMove evs : Int) := by
    rw [run32_x]
    unfold wrap32
    omega
  have h2 : wrap32 (10 * (nClicks Event.clickMove evs : Int) + 100)
      = 10 * (nClicks Event.clickMove evs : Int) + 100 := by
    unfold wrap32
    omega
  refine ⟨hx, ?_, ?_⟩
  · simp only [leftStyle32, leftStyleClosure32, xGet, hx, h2]
  · simp only [bgColorStyle, bgColorClosure, xGet, hx]

/-- C8 witness: two "Click to Move" clicks are in range; x = 20, left is
"120px" and background-color is "rgb(20, 100, 100)". -/
theorem move_button_in_range_witness :
    10 * (nClicks Event.clickMove [Event.clickMove, Event.clickMove] : Int)
        + 100 ≤ 2147483647 ∧
    ((run32 [Event.clickMove, Event.clickMove]).x
        = 10 * (nClicks Event.clickMove [Event.clickMove, Event.clickMove] : Int) ∧
      leftStyle32 (run32 [Event.clickMove, Event.clickMove]) =
        toString (10 * (nClicks Event.clickMove
          [Event.clickMove, Event.clickMove] : Int) + 100) ++ "px" ∧
      bgColorStyle (run32 [Event.clickMove, Event.clickMove]) =
        "rgb(" ++ toString (10 * (nClicks Event.clickMove
          [Event.clickMove, Event.clickMove] : Int)) ++ ", " ++
          toString (100 : Int) ++ ", 100)") :=
  ⟨by decide,
    move_button_in_range [Event.clickMove, Event.clickMove] (by decide)⟩

/-- C9: the two signals are independent: a "Click Me" click changes `count`
(and only facets bound to it) while leaving `x` and every `x`-bound style
facet unchanged; a "Click to Move" click changes `x` while leaving `count`
and every `count`-bound facet unchanged. -/
theorem signals_independent (s : AppState) :
    (step s Event.clickMe).count = s.count + 1 ∧
    (step s Event.clickMe).count ≠ s.count ∧
    (step s Event.clickMe).x = s.x ∧
    leftStyle (step s Event.clickMe) = leftStyle s ∧
    bgColorStyle (step s Event.clickMe) = bgColorStyle s ∧
    columnsVar (step s Event.clickMe) = columnsVar s ∧
    (step s Event.clickMove).x = s.x + 10 ∧
    (step s Event.clickMove).x ≠ s.x ∧
    (step s Event.clickMove).count = s.count ∧
    countText (step s Event.clickMove) = countText s ∧
    redClassOn (step s Event.clickMove) = redClassOn s ∧
    doubleText (step s Event.clickMove) = doubleText s ∧
    progressValue (step s Event.clickMove) = progressValue s := by
  refine ⟨rfl, ?_, rfl, rfl, rfl, rfl, rfl, ?_, rfl, rfl, rfl, rfl, rfl⟩
  · simp [step, clickMeHandler]
  · simp [step, clickMoveHandler]

/-- C10 (counterexample): "exactly twice" fails in the reachable state with
`count` = 2^30: the `i32` product `count.get() * 2` overflows and wraps to
-2147483648, which is not twice 1073741824.  (A debug build panics while
evaluating `double_count` there instead of wrapping.) -/
theorem double_fails_after_overflow :
    countNum (run32 (List.replicate 1073741824 Event.clickMe)) = 1073741824 ∧
    progressValue32 (run32 (List.replicate 1073741824 Event.clickMe))
      = -2147483648 ∧
    progressValue32 (run32 (List.replicate 1073741824 Event.clickMe))
      ≠ 2 * countNum (run32 (List.replicate 1073741824 Event.clickMe)) := by
  have hc : (run32 (List.replicate 1073741824 Event.clickMe)).count
      = 1073741824 := by
    rw [run32_count, nClicks_replicate]
    decide
  have hn : countNum (run32 (List.replicate 1073741824 Event.clickMe))
      = 1073741824 := by
    rw [countNum_eq, hc]
  have hp : progressValue32 (run32 (List.replicate 1073741824 Event.clickMe))
      = -2147483648 := by
    rw [progressValue32_eq, hc]
    decide
  refine ⟨hn, hp, ?_⟩
  rw [hp, hn]
  decide

/-- C10 (amended): in every reachable state the rendered "Double Count" value
and the progress element's value are the `i32` product of the button's count
by 2, which is always even (wrapping modulo 2^32 preserves evenness); and in
every state reached by at most 2^30 - 1 "Click Me" clicks (so the product
does not overflow) they are each exactly twice the number rendered in the
"Click Me" button's text. -/
theorem double_twice_in_range (evs : List Event) :
    Even ((double_count32 (run32 evs)).1) ∧
    Even (progressValue32 (run32 evs)) ∧
    (nClicks Event.clickMe evs ≤ 1073741823 →
      (double_count32 (run32 evs)).1 = 2 * countNum (run32 evs) ∧
      doubleText32 (run32 evs) = toString (2 * countNum (run32 evs)) ∧
      progressValue32 (run32 evs) = 2 * countNum (run32 evs)) := by
  have he : Even (wrap32 ((run32 evs).count * 2)) := by
    rw [Int.even_iff]
    unfold wrap32
    omega
  refine ⟨he, he, ?_⟩
  intro h
  have hc : (run32 evs).count = (nClicks Event.clickMe evs : Int) := by
    rw [run32_count]
    unfold wrap32
    omega
  have hcn : countNum (run32 evs) = (nClicks Event.clickMe evs : Int) := hc
  have h2 : wrap32 ((nClicks Event.clickMe evs : Int) * 2)
      = 2 * (nClicks Event.clickMe evs : Int) := by
    unfold wrap32
    omega
  refine ⟨?_, ?_, ?_⟩
  · show wrap32 ((run32 evs).count * 2) = 2 * countNum (run32 evs)
    rw [hc, hcn, h2]
  · show toString (wrap32 ((run32 evs).count * 2))
      = toString (2 * countNum (run32 evs))
    rw [hc, hcn, h2]
  · show wrap32 ((run32 evs).count * 2) = 2 * countNum (run32 evs)
    rw [hc, hcn, h2]

/-- C10 witness: one click is in range; double and progress both render 2,
twice the button's 1, and are even. -/
theorem double_twice_in_range_witness :
    Even ((double_count32 (run32 [Event.clickMe])).1) ∧
    Even (progressValue32 (run32 [Event.clickMe])) ∧
    ((double_count32 (run32 [Event.clickMe])).1
        = 2 * countNum (run32 [Event.clickMe]) ∧
      doubleText32 (run32 [Event.clickMe])
        = toString (2 * countNum (run32 [Event.clickMe])) ∧
      progressValue32 (run32 [Event.clickMe])
        = 2 * countNum (run32 [Event.clickMe])) :=
  ⟨(double_twice_in_range [Event.clickMe]).1,
    (double_twice_in_range [Event.clickMe]).2.1,
    (double_twice_in_range [Event.clickMe]).2.2 (by decide)⟩

end LeptosTutorial
